import Mathlib

/-!
Verification of the OnStove core against its specification.

The development shallowly embeds the two source modules:
  * `onsstove/technology.py` — the `Technology` record, the relative-risk
    curves, the morbidity/mortality cohort loops and the discounted
    cost/benefit engine;
  * `onsstove/onsstove.py` — configuration reading, the layer registry and
    mask orchestration, population calibration and the urban-calibration
    loop.

Numeric conventions: float arithmetic that only uses field operations and
comparisons is embedded over a general `LinearOrderedField` (instantiated at
`ℚ` for executable witnesses and at `ℝ` where the source uses `exp`).
Python dynamic errors (`KeyError`, `ValueError`, `AttributeError`,
`TypeError`, generic `Exception`) are embedded with `Except`; a Python
`while` loop whose termination is in question is embedded with an explicit
fuel parameter, `none` meaning that the loop is still running when the fuel
runs out.
-/

open Filter Real

/-- Python exception kinds raised by `onsstove.py` code paths. -/
inductive CfgErr : Type where
  | valueError (msg : String)
  | keyError (key : String)
  | exception (msg : String)
  deriving DecidableEq, Repr

/-- Python exception kinds raised by `technology.py` code paths. -/
inductive PyErr : Type where
  | attributeError (attr : String)
  | typeError (msg : String)
  | nameError (nm : String)
  deriving DecidableEq, Repr

/-- Insert-or-replace into an association list, preserving the position of an
existing key: the embedding of assignment `d[k] = v` on a Python `dict`. -/
def dictInsert {β : Type} : List (String × β) → String → β → List (String × β)
  | [], k, v => [(k, v)]
  | p :: rest, k, v => if p.1 = k then (k, v) :: rest else p :: dictInsert rest k v

/-- Lookup in an association list: the embedding of `d[k]` / `k in d`. -/
def dictGet {β : Type} : List (String × β) → String → Option β
  | [], _ => none
  | p :: rest, k => if p.1 = k then some p.2 else dictGet rest k

/-- A Python value held in a configuration store or a `Technology` attribute.
The conversions `int(s)` / `float(s)` / `str(s)` applied by
`read_scenario_data` and `read_tech_data` are kept symbolic (`intConv s` is
`int(s)` etc.): the claims under verification depend only on which converter
is applied and where the result is stored, not on decimal parsing. -/
inductive PyV : Type where
  | pyNone
  | pyZero
  | intConv (s : String)
  | floatConv (s : String)
  | strConv (s : String)
  deriving DecidableEq, Repr

/-- The attribute record that `Technology.__init__` creates: exactly the
eleven attributes it assigns, uniformly typed (Python objects are untyped).
Note that `start_year` and `end_year` are *not* among them. -/
structure TechnologyR (α : Type) : Type where
  name : α
  carbon_intensity : α
  energy_content : α
  tech_life : α
  fuel_cost : α
  inv_cost : α
  infra_cost : α
  om_cost : α
  time_of_cooking : α
  efficiency : α
  pm25 : α
  deriving DecidableEq, Repr

/-- A fresh `Technology()` with all defaults: `name=None`, every numeric field `0`. -/
def initTechnology : TechnologyR PyV :=
  { name := PyV.pyNone
    carbon_intensity := PyV.pyZero
    energy_content := PyV.pyZero
    tech_life := PyV.pyZero
    fuel_cost := PyV.pyZero
    inv_cost := PyV.pyZero
    infra_cost := PyV.pyZero
    om_cost := PyV.pyZero
    time_of_cooking := PyV.pyZero
    efficiency := PyV.pyZero
    pm25 := PyV.pyZero }

/-- Embedding of `Technology.__setitem__`: the `elif` chain over the index string, in
source order, raising `KeyError(idx)` on fall-through. -/
def setItem {α : Type} (t : TechnologyR α) (idx : String) (value : α) :
    Except CfgErr (TechnologyR α) :=
  if idx = "name" then Except.ok { t with name := value }
  else if idx = "energy_content" then Except.ok { t with energy_content := value }
  else if idx = "carbon_intensity" then Except.ok { t with carbon_intensity := value }
  else if idx = "fuel_cost" then Except.ok { t with fuel_cost := value }
  else if idx = "tech_life" then Except.ok { t with tech_life := value }
  else if idx = "inv_cost" then Except.ok { t with inv_cost := value }
  else if idx = "infra_cost" then Except.ok { t with infra_cost := value }
  else if idx = "om_cost" then Except.ok { t with om_cost := value }
  else if idx = "time_of_cooking" then Except.ok { t with time_of_cooking := value }
  else if idx = "efficiency" then Except.ok { t with efficiency := value }
  else if idx = "pm25" then Except.ok { t with pm25 := value }
  else Except.error (CfgErr.keyError idx)

/-- The eleven index strings `Technology.__setitem__` accepts. -/
def recognizedTechKeys : List String :=
  ["name", "energy_content", "carbon_intensity", "fuel_cost", "tech_life",
   "inv_cost", "infra_cost", "om_cost", "time_of_cooking", "efficiency", "pm25"]

/-- One record of the scenario configuration file. -/
structure Row : Type where
  Param : String
  Value : String
  data_type : String
  deriving DecidableEq, Repr

/-- One record of the technology configuration file (adds the `Fuel` column). -/
structure RowT : Type where
  Fuel : String
  Param : String
  Value : String
  data_type : String
  deriving DecidableEq, Repr

/-- The row loop of `OnSSTOVE.read_scenario_data`: skip rows with falsy
(empty) `Value`; dispatch on `data_type`, storing the converted value under
the `Param` key; raise `ValueError` on an unrecognized `data_type`. -/
def readScenarioAux : List (String × PyV) → List Row → Except CfgErr (List (String × PyV))
  | config, [] => Except.ok config
  | config, r :: rest =>
    if r.Value = "" then readScenarioAux config rest
    else if r.data_type = "int" then
      readScenarioAux (dictInsert config r.Param (PyV.intConv r.Value)) rest
    else if r.data_type = "float" then
      readScenarioAux (dictInsert config r.Param (PyV.floatConv r.Value)) rest
    else if r.data_type = "string" then
      readScenarioAux (dictInsert config r.Param (PyV.strConv r.Value)) rest
    else Except.error (CfgErr.valueError ("Config file data type not recognised."))

/-- Embedding of `OnSSTOVE.read_scenario_data`, starting from the empty config dict. -/
def read_scenario_data (rows : List Row) : Except CfgErr (List (String × PyV)) :=
  readScenarioAux [] rows

/-- The dict `techs` after `if row[Fuel] not in techs: techs[row[Fuel]] = Technology()`. -/
def techsEnsure (techs : List (String × TechnologyR PyV)) (fuel : String) :
    List (String × TechnologyR PyV) :=
  if (dictGet techs fuel).isSome then techs else dictInsert techs fuel initTechnology

/-- The technology record that `techs[row[Fuel]]` denotes after `techsEnsure`
(the key is present by construction, so the default is never used). -/
def techAt (techs : List (String × TechnologyR PyV)) (fuel : String) : TechnologyR PyV :=
  (dictGet (techsEnsure techs fuel) fuel).getD initTechnology

/-- The row loop of `OnSSTOVE.read_tech_data`: skip falsy `Value`; ensure a
`Technology()` exists for the `Fuel` of the row; dispatch on `data_type` and
assign through `Technology.__setitem__` (whose `KeyError` propagates); raise
`ValueError` on an unrecognized `data_type`. -/
def readTechAux :
    List (String × TechnologyR PyV) → List RowT →
      Except CfgErr (List (String × TechnologyR PyV))
  | techs, [] => Except.ok techs
  | techs, r :: rest =>
    if r.Value = "" then readTechAux techs rest
    else
      let techs1 := techsEnsure techs r.Fuel
      if r.data_type = "int" then
        match setItem (techAt techs r.Fuel) r.Param (PyV.intConv r.Value) with
        | Except.error e => Except.error e
        | Except.ok t1 => readTechAux (dictInsert techs1 r.Fuel t1) rest
      else if r.data_type = "float" then
        match setItem (techAt techs r.Fuel) r.Param (PyV.floatConv r.Value) with
        | Except.error e => Except.error e
        | Except.ok t1 => readTechAux (dictInsert techs1 r.Fuel t1) rest
      else if r.data_type = "string" then
        match setItem (techAt techs r.Fuel) r.Param (PyV.strConv r.Value) with
        | Except.error e => Except.error e
        | Except.ok t1 => readTechAux (dictInsert techs1 r.Fuel t1) rest
      else Except.error (CfgErr.valueError ("Config file data type not recognised."))

/-- Embedding of `OnSSTOVE.read_tech_data`, starting from the empty techs dict. -/
def read_tech_data (rows : List RowT) : Except CfgErr (List (String × TechnologyR PyV)) :=
  readTechAux [] rows

/-- The `Technology` entity viewed with numeric fields, as the cost/benefit
engine in `technology.py` consumes it. `start_year` and `end_year` are never
assigned by `__init__` or `__setitem__`; the data model (spec section 3)
lists them as fields and `discount_factor` reads them, so they appear here
as plain fields (in Python they can only arrive by direct attribute
assignment). -/
structure Technology (K : Type) : Type where
  name : Option String := none
  carbon_intensity : K
  energy_content : K
  tech_life : Nat
  fuel_cost : K
  inv_cost : K
  infra_cost : K
  om_cost : K
  time_of_cooking : K
  efficiency : K
  pm25 : K
  start_year : Nat
  end_year : Nat

/-- The project horizon computed inside `discount_factor`:
`1` when `start_year == end_year`, else `end_year - start_year`. -/
def proj_life {K : Type} (tech : Technology K) : Nat :=
  if tech.start_year = tech.end_year then 1 else tech.end_year - tech.start_year

/-- Embedding of `discount_factor`: the per-year series `(1+r)^year` for
`year in [0, proj_life)`, together with `proj_life`. -/
def discount_factor {K : Type} [LinearOrderedField K] (r : K) (tech : Technology K) :
    List K × Nat :=
  ((List.range (proj_life tech)).map (fun year => (1 + r) ^ year), proj_life tech)

/-- Embedding of `discounted_inv`.  Modelled from the spec: the source indexes the
undeclared name `project_life` (only the missing `raster` module could
supply it); spec section 9 directs implementers to read it as the
`proj_life` returned by `discount_factor`, which is done here.  Investments
start as zeros, the year-0 entry is the investment cost, and one replacement
is written at index `tech_life` when `proj_life > tech_life`; the schedule is
divided elementwise by the discount-factor series. -/
def discounted_inv {K : Type} [LinearOrderedField K] (r : K) (tech : Technology K) :
    List K :=
  let discount_rate := (discount_factor r tech).1
  let pl := (discount_factor r tech).2
  let investments := (List.replicate pl (0 : K)).set 0 tech.inv_cost
  let investments2 :=
    if tech.tech_life < pl then investments.set tech.tech_life tech.inv_cost
    else investments
  List.zipWith (fun a b => a / b) investments2 discount_rate

/-- Embedding of `discounted_meals` (with `project_life` read as `proj_life`, as above):
constant per-year energy `meals_per_year * 3.64 / efficiency`, zeroed in
year 0 when the horizon exceeds one year, divided by the discount series. -/
def discounted_meals {K : Type} [LinearOrderedField K]
    (meals_per_year : K) (r : K) (tech : Technology K) : List K :=
  let discount_rate := (discount_factor r tech).1
  let pl := (discount_factor r tech).2
  let energy := meals_per_year * (364 / 100 : K) / tech.efficiency
  let energy_needed := List.replicate pl energy
  let energy_needed2 := if 1 < pl then energy_needed.set 0 0 else energy_needed
  List.zipWith (fun a b => a / b) energy_needed2 discount_rate

/-- Embedding of `salvage` (with `project_life` read as `proj_life`, as above): a single
credit in the final year, proportional to remaining useful life, divided by
the discount series. -/
def salvage {K : Type} [LinearOrderedField K] (r : K) (tech : Technology K) : List K :=
  let discount_rate := (discount_factor r tech).1
  let pl := (discount_factor r tech).2
  let used_life := if tech.tech_life < pl then pl - tech.tech_life else pl
  let s := (List.replicate pl (0 : K)).set (pl - 1)
    (tech.inv_cost * (1 - (used_life : K) / (tech.tech_life : K)))
  List.zipWith (fun a b => a / b) s discount_rate

/-- The evaluation of `discounted_inv` inside `cost` (it returns its series;
see `discounted_inv` for the spec-directed reading of `project_life`). -/
noncomputable def discounted_invE (r : ℝ) (tech : Technology ℝ) : Except PyErr (List ℝ) :=
  Except.ok (discounted_inv r tech)

/-- The evaluation of `discounted_om` inside `cost`: the source reads
`tech.om_costs`, an attribute no `Technology` ever has (`__init__` and
`__setitem__` only ever create `om_cost`), so Python raises
`AttributeError` before anything else in the function body matters. -/
def discounted_omE (_tech : Technology ℝ) : Except PyErr (List ℝ) :=
  Except.error (PyErr.attributeError ("om_costs"))

/-- The evaluation of the `discounted_fuel_cost` call inside `cost`: the call
site passes `(discount_rate_tech, tech, road_friction, lpg)` and omits the
required positional parameter `meals_per_year`, so Python raises `TypeError`
at the call. -/
def discounted_fuel_costE (_r : ℝ) (_tech : Technology ℝ) (_road_friction _lpg : ℝ) :
    Except PyErr (List ℝ) :=
  Except.error (PyErr.typeError
    ("discounted_fuel_cost missing 1 required positional argument: meals_per_year"))

/-- The evaluation of `salvage` inside `cost` (returns its series). -/
noncomputable def salvageE (r : ℝ) (tech : Technology ℝ) : Except PyErr (List ℝ) :=
  Except.ok (salvage r tech)

/-- Embedding of `cost`: evaluates its four summands left to right and combines them as
`(inv + om + fuel - salvage) / discounted_meals`, propagating the first
Python exception raised. -/
noncomputable def costE (r : ℝ) (tech : Technology ℝ) (meals_per_year road_friction lpg : ℝ) :
    Except PyErr (List ℝ) := do
  let inv ← discounted_invE r tech
  let om ← discounted_omE tech
  let fc ← discounted_fuel_costE r tech road_friction lpg
  let sal ← salvageE r tech
  let num := List.zipWith (fun a b => a - b) (List.zipWith (fun a b => a + b)
    (List.zipWith (fun a b => a + b) inv om) fc) sal
  Except.ok (List.zipWith (fun a b => a / b) num (discounted_meals meals_per_year r tech))

/-- The evaluation of `benefit`: its first step calls
`morbidity(start_year, end_year, tech, discount_rate_social, hhsize_R,
hhsize_U, sfu)`, passing 7 positional arguments to a function with 14
required parameters, so Python raises `TypeError` at the call (and even with
the right arguments `morbidity` never returns: its cohort loop never
advances, see `morbidityFuel` below). -/
def benefitE (_start_year _end_year : Nat) (_tech : Technology ℝ)
    (_discount_rate_social _hhsize_R _hhsize_U _vsl _value_of_time
     _walking_friction _forest _sfu : ℝ) : Except PyErr ℝ :=
  Except.error (PyErr.typeError ("morbidity missing 8 required positional arguments"))

/-- Embedding of `net_costs`: evaluates `cost` then `benefit` and returns their
(broadcast) difference, propagating the first Python exception raised. -/
noncomputable def net_costsE (r : ℝ) (tech : Technology ℝ) (meals_per_year road_friction lpg : ℝ)
    (start_year end_year : Nat)
    (discount_rate_social hhsize_R hhsize_U vsl value_of_time
     walking_friction forest sfu : ℝ) : Except PyErr (List ℝ) := do
  let c ← costE r tech meals_per_year road_friction lpg
  let b ← benefitE start_year end_year tech discount_rate_social hhsize_R hhsize_U
    vsl value_of_time walking_friction forest sfu
  Except.ok (c.map (fun x => x - b))

/-- Embedding of `OnSSTOVE.calibrate_pop` on the `Pop` column: every point is scaled by
`Population_start_year / total_gis_pop`. -/
def calibrate_pop (pops : List ℚ) (population_start_year : ℚ) : List ℚ :=
  let total_gis_pop := pops.sum
  let calibration_factor := population_start_year / total_gis_pop
  pops.map (fun p => p * calibration_factor)

/-- One row of the point table as `calibrate_urban` reads it. -/
structure PT : Type where
  Population : ℚ
  Calibrated_pop : ℚ
  IsUrban : Nat
  deriving DecidableEq, Repr

/-- Reclassification of a point in one iteration: `IsUrban` is set to 0, then
to 1 where the tier-1 thresholds are strictly exceeded, then to 2 where the
tier-2 thresholds are strictly exceeded (the later assignment overwrites the
earlier one on rows satisfying both). -/
def classifyPoint (cell_size factor : ℚ) (p : PT) : PT :=
  { p with IsUrban :=
      if 50000 * factor < p.Population ∧ 1500 * factor < p.Population / cell_size then 2
      else if 5000 * factor < p.Population ∧ 350 * factor < p.Population / cell_size then 1
      else 0 }

/-- The modelled urban share computed by the loop body.  Modelled from the
spec: the source sums `Calibrated_pop` over rows of `clusters` with
`IsUrban > 1`, and `clusters` is a name only the missing `raster` module
could supply; the spec (section 4.4) says the share is computed from the
reclassified point table, so the lookup is read as the point table. -/
def urban_modelled_src (cell_size factor ptot : ℚ) (gdf : List PT) : ℚ :=
  (((gdf.map (classifyPoint cell_size factor)).filter
      (fun q => decide (1 < q.IsUrban))).map (fun q => q.Calibrated_pop)).sum / ptot

/-- The urban share as the claim words it: calibrated population summed over
all points classified urban (`IsUrban ≥ 1`), divided by total population.
This definition follows the spec text and exists to be compared against
`urban_modelled_src`. -/
def urban_modelled_spec (cell_size factor ptot : ℚ) (gdf : List PT) : ℚ :=
  (((gdf.map (classifyPoint cell_size factor)).filter
      (fun q => decide (0 < q.IsUrban))).map (fun q => q.Calibrated_pop)).sum / ptot

/-- The `while` loop of `OnSSTOVE.calibrate_urban`, with the remaining
iteration budget made explicit.  The loop guard `|urban_modelled -
urban_current| > 0.01` is tested before each body; the body reclassifies
every point with the current factor, recomputes the modelled share, and
scales the factor by 1.1 or 0.9; the counter test `i > 500` breaks after the
501st body.  The result is the final point table and the number of body
executions. -/
def calibAux (cell_size ptot ucur : ℚ) :
    Nat → ℚ → ℚ → List PT → List PT × Nat
  | 0, _, _, gdf => (gdf, 0)
  | fuel + 1, factor, umod, gdf =>
    if abs (umod - ucur) ≤ 1 / 100 then (gdf, 0)
    else
      let gdf2 := gdf.map (classifyPoint cell_size factor)
      let umod2 := urban_modelled_src cell_size factor ptot gdf
      let factor2 := if ucur < umod2 then factor * (11 / 10) else factor * (9 / 10)
      let r := calibAux cell_size ptot ucur fuel factor2 umod2 gdf2
      (r.1, r.2 + 1)

/-- Embedding of `OnSSTOVE.calibrate_urban`: starts at `factor = 1`, `urban_modelled = 2`,
with budget for the at most 501 body executions the `i > 500` break allows. -/
def calibrate_urban (cell_size ptot ucur : ℚ) (gdf : List PT) : List PT × Nat :=
  calibAux cell_size ptot ucur 501 1 2 gdf

/-- A registered layer as the mask orchestration sees it: an identifier and
whether a nested friction raster is present (in which case the friction
layer is masked too). -/
structure LayerV : Type where
  lid : Nat
  friction : Bool
  deriving DecidableEq, Repr

/-- The layer registry `self.layers`: category → (name → layer). -/
abbrev Registry : Type := List (String × List (String × LayerV))

/-- A selection passed to `get_layers`: the string `"all"` or an explicit
mapping category → names. -/
inductive Selection : Type where
  | all
  | explicitSel (m : List (String × List String))
  deriving DecidableEq, Repr

/-- Embedding of `OnSSTOVE.get_layers`: the string selection returns the registry unchanged; an
explicit mapping is rebuilt by the dict comprehension
`{category: {name: self.layers[category][name]} for category, names in
layers.items() for name in names}` — each (category, name) pair writes a
fresh single-name inner dict under `category`, so later names of the same
category overwrite earlier ones.  A missing category or name raises
`KeyError`. -/
def get_layers (reg : Registry) : Selection → Except CfgErr Registry
  | Selection.all => Except.ok reg
  | Selection.explicitSel m =>
    ((m.map (fun cn => cn.2.map (fun n => (cn.1, n)))).flatten).foldlM
      (fun acc p =>
        match dictGet reg p.1 with
        | none => Except.error (CfgErr.keyError p.1)
        | some inner =>
          match dictGet inner p.2 with
          | none => Except.error (CfgErr.keyError p.2)
          | some l => Except.ok (dictInsert acc p.1 [(p.2, l)]))
      []

/-- Embedding of `OnSSTOVE.mask_layers`: raises when no mask boundary has been set,
otherwise masks every layer returned by `get_layers` in order (recording the
(category, name, friction-was-masked) actions performed). -/
def mask_layers (mask_set : Bool) (reg : Registry) (sel : Selection) :
    Except CfgErr (List (String × String × Bool)) :=
  if mask_set = false then
    Except.error (CfgErr.exception
      ("The mask_layer attribute is empty, please first add a mask layer using the add_mask_layer method."))
  else do
    let datasets ← get_layers reg sel
    Except.ok ((datasets.map
      (fun cat => cat.2.map (fun nl => (cat.1, nl.1, nl.2.friction)))).flatten)

/-- The ALRI relative-risk curve (`Technology.relative_risk`, first block;
the same formula is inlined in `morbidity` and `mortality`). -/
noncomputable def rr_alri (pm25 : ℝ) : ℝ :=
  if pm25 < 7.298 then 1
  else 1 + 2.383 * (1 - Real.exp (-0.004 * (pm25 - 7.298) ^ (1.193 : ℝ)))

/-- The COPD relative-risk curve. -/
noncomputable def rr_copd (pm25 : ℝ) : ℝ :=
  if pm25 < 7.337 then 1
  else 1 + 22.485 * (1 - Real.exp (-0.001 * (pm25 - 7.337) ^ (0.694 : ℝ)))

/-- The IHD relative-risk curve. -/
noncomputable def rr_ihd (pm25 : ℝ) : ℝ :=
  if pm25 < 7.505 then 1
  else 1 + 2.538 * (1 - Real.exp (-0.081 * (pm25 - 7.505) ^ (0.466 : ℝ)))

/-- The lung-cancer relative-risk curve. -/
noncomputable def rr_lc (pm25 : ℝ) : ℝ :=
  if pm25 < 7.345 then 1
  else 1 + 152.496 * (1 - Real.exp (-0.000167 * (pm25 - 7.345) ^ (0.76 : ℝ)))

/-- Embedding of `Technology.relative_risk`: the four curves evaluated at `pm25`. -/
noncomputable def relative_risk (pm25 : ℝ) : ℝ × ℝ × ℝ × ℝ :=
  (rr_alri pm25, rr_copd pm25, rr_ihd pm25, rr_lc pm25)

/-- The population-attributable fraction `sfu*(RR-1) / (sfu*(RR-1)+1)`. -/
noncomputable def paf (sfu rr : ℝ) : ℝ :=
  (sfu * (rr - 1)) / (sfu * (rr - 1) + 1)

/-- The arguments of `morbidity` (parameters and `tech.pm25`). -/
structure MorbArgs : Type where
  start_year : Nat
  end_year : Nat
  pm25 : ℝ
  discount_rate_social : ℝ
  hhsize_R : ℝ
  hhsize_U : ℝ
  coi_alri : ℝ
  coi_lc : ℝ
  coi_copd : ℝ
  coi_ihd : ℝ
  inci_alri : ℝ
  inci_lc : ℝ
  inci_copd : ℝ
  inci_ihd : ℝ
  sfu : ℝ

/-- The COPD cohort-weight dict `{1: 0.3, 2: 0.2, 3: 0.17, 4: 0.17, 5: 0.16}`
(a lookup outside 1..5 would be a `KeyError`; the loop only ever uses key 1). -/
noncomputable def cl_copd (i : Nat) : ℝ :=
  if i = 1 then 0.3 else if i = 2 then 0.2 else if i = 3 then 0.17
  else if i = 4 then 0.17 else if i = 5 then 0.16 else 0

/-- The ALRI cohort-weight dict. -/
noncomputable def cl_alri (i : Nat) : ℝ :=
  if i = 1 then 0.7 else if i = 2 then 0.1 else if i = 3 then 0.07
  else if i = 4 then 0.07 else if i = 5 then 0.06 else 0

/-- The lung-cancer cohort-weight dict. -/
noncomputable def cl_lc (i : Nat) : ℝ :=
  if i = 1 then 0.2 else if i = 2 then 0.1 else if i = 3 then 0.24
  else if i = 4 then 0.23 else if i = 5 then 0.23 else 0

/-- The IHD cohort-weight dict. -/
noncomputable def cl_ihd (i : Nat) : ℝ :=
  if i = 1 then 0.2 else if i = 2 then 0.1 else if i = 3 then 0.24
  else if i = 4 then 0.23 else if i = 5 then 0.23 else 0

/-- The mutable state of the `while i < 6` loop in `morbidity`. -/
structure MorbState : Type where
  i : Nat
  morb_U_vector : List ℝ
  morb_R_vector : List ℝ

/-- One execution of the body of the `while i < 6` loop in `morbidity`.  The
pre-loop products (`paf` of the relative risks, household size times
incidence) are recomputed here, which is equal because they are pure.  The
body appends one cohort term to each vector and — exactly as in the source —
never changes `i`. -/
noncomputable def morb_step (a : MorbArgs) (s : MorbState) : MorbState :=
  let paf_alri := paf a.sfu (rr_alri a.pm25)
  let paf_copd := paf a.sfu (rr_copd a.pm25)
  let paf_ihd := paf a.sfu (rr_ihd a.pm25)
  let paf_lc := paf a.sfu (rr_lc a.pm25)
  let morb_alri_U := a.hhsize_U * paf_alri * a.inci_alri
  let morb_copd_U := a.hhsize_U * paf_copd * a.inci_copd
  let morb_ihd_U := a.hhsize_U * paf_ihd * a.inci_ihd
  let morb_lc_U := a.hhsize_U * paf_lc * a.inci_lc
  let morb_alri_R := a.hhsize_R * paf_alri * a.inci_alri
  let morb_copd_R := a.hhsize_R * paf_copd * a.inci_copd
  let morb_ihd_R := a.hhsize_R * paf_ihd * a.inci_ihd
  let morb_lc_R := a.hhsize_R * paf_lc * a.inci_lc
  let denom := (1 + a.discount_rate_social) ^ (a.end_year - a.start_year)
  let morb_U_total := cl_alri s.i * a.coi_alri * morb_alri_U / denom
    + cl_copd s.i * a.coi_copd * morb_copd_U / denom
    + cl_lc s.i * a.coi_lc * morb_lc_U / denom
    + cl_ihd s.i * a.coi_ihd * morb_ihd_U / denom
  let morb_R_total := cl_alri s.i * a.coi_alri * morb_alri_R / denom
    + cl_copd s.i * a.coi_copd * morb_copd_R / denom
    + cl_lc s.i * a.coi_lc * morb_lc_R / denom
    + cl_ihd s.i * a.coi_ihd * morb_ihd_R / denom
  { i := s.i,
    morb_U_vector := s.morb_U_vector ++ [morb_U_total],
    morb_R_vector := s.morb_R_vector ++ [morb_R_total] }

/-- The `while i < 6` loop of `morbidity` with an explicit iteration budget:
`none` means the guard was still true when the budget ran out. -/
noncomputable def morbAux (a : MorbArgs) : Nat → MorbState → Option (ℝ × ℝ)
  | 0, _ => none
  | fuel + 1, s =>
    if s.i < 6 then morbAux a fuel (morb_step a s)
    else some (s.morb_R_vector.sum, s.morb_U_vector.sum)

/-- The function `morbidity` run with an iteration budget, from `i = 1` and empty
vectors; a `some` result would be `(morbidity_R, morbidity_U)`. -/
noncomputable def morbidityFuel (fuel : Nat) (a : MorbArgs) : Option (ℝ × ℝ) :=
  morbAux a fuel { i := 1, morb_U_vector := [], morb_R_vector := [] }

/-- The arguments of `mortality`. -/
structure MortArgs : Type where
  start_year : Nat
  end_year : Nat
  pm25 : ℝ
  discount_rate_social : ℝ
  hhsize_R : ℝ
  hhsize_U : ℝ
  vsl : ℝ
  mort_ihd : ℝ
  mort_lc : ℝ
  mort_alri : ℝ
  mort_copd : ℝ
  sfu : ℝ

/-- The mutable state of the `while i < 6` loop in `mortality`. -/
structure MortState : Type where
  i : Nat
  mort_U_vector : List ℝ
  mort_R_vector : List ℝ

/-- One execution of the body of the `while i < 6` loop in `mortality`;
like `morbidity`, the source never changes `i` in the body. -/
noncomputable def mort_step (a : MortArgs) (s : MortState) : MortState :=
  let paf_alri := paf a.sfu (rr_alri a.pm25)
  let paf_copd := paf a.sfu (rr_copd a.pm25)
  let paf_ihd := paf a.sfu (rr_ihd a.pm25)
  let paf_lc := paf a.sfu (rr_lc a.pm25)
  let mort_alri_U := a.hhsize_U * paf_alri * a.mort_alri
  let mort_copd_U := a.hhsize_U * paf_copd * a.mort_copd
  let mort_ihd_U := a.hhsize_U * paf_ihd * a.mort_ihd
  let mort_lc_U := a.hhsize_U * paf_lc * a.mort_lc
  let mort_alri_R := a.hhsize_R * paf_alri * a.mort_alri
  let mort_copd_R := a.hhsize_R * paf_copd * a.mort_copd
  let mort_ihd_R := a.hhsize_R * paf_ihd * a.mort_ihd
  let mort_lc_R := a.hhsize_R * paf_lc * a.mort_lc
  let denom := (1 + a.discount_rate_social) ^ (a.end_year - a.start_year)
  let mort_U_total := cl_alri s.i * a.vsl * mort_alri_U / denom
    + cl_copd s.i * a.vsl * mort_copd_U / denom
    + cl_lc s.i * a.vsl * mort_lc_U / denom
    + cl_ihd s.i * a.vsl * mort_ihd_U / denom
  let mort_R_total := cl_alri s.i * a.vsl * mort_alri_R / denom
    + cl_copd s.i * a.vsl * mort_copd_R / denom
    + cl_lc s.i * a.vsl * mort_lc_R / denom
    + cl_ihd s.i * a.vsl * mort_ihd_R / denom
  { i := s.i,
    mort_U_vector := s.mort_U_vector ++ [mort_U_total],
    mort_R_vector := s.mort_R_vector ++ [mort_R_total] }

/-- The `while i < 6` loop of `mortality` with an explicit iteration budget. -/
noncomputable def mortAux (a : MortArgs) : Nat → MortState → Option (ℝ × ℝ)
  | 0, _ => none
  | fuel + 1, s =>
    if s.i < 6 then mortAux a fuel (mort_step a s)
    else some (s.mort_R_vector.sum, s.mort_U_vector.sum)

/-- The function `mortality` run with an iteration budget, from `i = 1`. -/
noncomputable def mortalityFuel (fuel : Nat) (a : MortArgs) : Option (ℝ × ℝ) :=
  mortAux a fuel { i := 1, mort_U_vector := [], mort_R_vector := [] }

/-- A concrete technology for evaluating the discounting claims: 10-year
horizon (2020–2030), 5-year stove life, investment cost 100. -/
def techC6 : Technology ℚ :=
  { carbon_intensity := 0, energy_content := 0, tech_life := 5, fuel_cost := 0,
    inv_cost := 100, infra_cost := 0, om_cost := 0, time_of_cooking := 0,
    efficiency := 1, pm25 := 0, start_year := 2020, end_year := 2030 }

/-- A concrete point for the urban-share claims: tier-1 urban (population
10000, density 10000) but not tier-2, calibrated population 100. -/
def pC5 : PT :=
  { Population := 10000, Calibrated_pop := 100, IsUrban := 0 }

/-- A concrete registry for the masking claim: one category with two layers. -/
def regC9 : Registry :=
  [("cat", [("a", { lid := 0, friction := false }),
            ("b", { lid := 1, friction := false })])]

/-- A selection naming both layers of the category. -/
def selC9 : Selection :=
  Selection.explicitSel [("cat", ["a", "b"])]

/-- A concrete scenario row for evaluating the configuration claims. -/
def rowW : Row :=
  { Param := "Population_start_year", Value := "1000", data_type := "int" }

/-- A concrete technology row whose `Param` is `start_year`: a field the data
model lists but `Technology.__setitem__` does not accept. -/
def rowTbad : RowT :=
  { Fuel := "lpg", Param := "start_year", Value := "2020", data_type := "int" }

theorem list_getD_map_mul (c : ℚ) :
    ∀ (l : List ℚ) (i : Nat), (l.map (fun p => p * c)).getD i 0 = l.getD i 0 * c := by
  intro l
  induction l with
  | nil => intro i; simp
  | cons a tl ih =>
    intro i
    cases i with
    | zero => simp
    | succ j => simpa using ih j

theorem list_sum_map_mul (c : ℚ) :
    ∀ l : List ℚ, (l.map (fun p => p * c)).sum = l.sum * c := by
  intro l
  induction l with
  | nil => simp
  | cons a tl ih => simp [ih, add_mul]

/-- C8: after population calibration the `Calibrated_pop` of each point is its
`Pop` scaled by `Population_start_year / total_gis_pop`, and the calibrated
column sums exactly to the configured `Population_start_year` (the `Pop`
column having positive sum and the configured total being positive). -/
theorem C8_calibrate_pop (pops : List ℚ) (S : ℚ)
    (h1 : 0 < pops.sum) (h2 : 0 < S) :
    (∀ i, (calibrate_pop pops S).getD i 0 = pops.getD i 0 * (S / pops.sum))
      ∧ (calibrate_pop pops S).sum = S := by
  constructor
  · intro i
    simpa [calibrate_pop] using list_getD_map_mul (S / pops.sum) pops i
  · have h := list_sum_map_mul (S / pops.sum) pops
    simp only [calibrate_pop]
    rw [h, mul_comm, div_mul_cancel₀ _ (ne_of_gt h1)]

theorem C8_witness : (calibrate_pop [1, 3] 8).sum = 8 :=
  (C8_calibrate_pop [1, 3] 8 (by norm_num) (by norm_num)).2

theorem setItem_unknown {α : Type} (t : TechnologyR α) (v : α) (k : String)
    (hk : k ∉ recognizedTechKeys) :
    setItem t k v = Except.error (CfgErr.keyError k) := by
  simp only [recognizedTechKeys, List.mem_cons, List.not_mem_nil, or_false, not_or] at hk
  obtain ⟨h1, h2, h3, h4, h5, h6, h7, h8, h9, h10, h11⟩ := hk
  simp [setItem, h1, h2, h3, h4, h5, h6, h7, h8, h9, h10, h11]

/-- C10: `Technology.__setitem__` accepts exactly the eleven keys of
`recognizedTechKeys`, each assignment mutating only the named field, and
raises `KeyError` for every other key — in particular `start_year` and
`end_year` (which `discount_factor` reads) cannot be set through it. -/
theorem C10_setitem_keys {α : Type} (t : TechnologyR α) (v : α) :
    (∀ k, k ∉ recognizedTechKeys → setItem t k v = Except.error (CfgErr.keyError k))
      ∧ setItem t ("name") v = Except.ok { t with name := v }
      ∧ setItem t ("energy_content") v = Except.ok { t with energy_content := v }
      ∧ setItem t ("carbon_intensity") v = Except.ok { t with carbon_intensity := v }
      ∧ setItem t ("fuel_cost") v = Except.ok { t with fuel_cost := v }
      ∧ setItem t ("tech_life") v = Except.ok { t with tech_life := v }
      ∧ setItem t ("inv_cost") v = Except.ok { t with inv_cost := v }
      ∧ setItem t ("infra_cost") v = Except.ok { t with infra_cost := v }
      ∧ setItem t ("om_cost") v = Except.ok { t with om_cost := v }
      ∧ setItem t ("time_of_cooking") v = Except.ok { t with time_of_cooking := v }
      ∧ setItem t ("efficiency") v = Except.ok { t with efficiency := v }
      ∧ setItem t ("pm25") v = Except.ok { t with pm25 := v } := by
  exact ⟨fun k hk => setItem_unknown t v k hk,
    rfl, rfl, rfl, rfl, rfl, rfl, rfl, rfl, rfl, rfl, rfl⟩

theorem C10_witness :
    setItem initTechnology ("start_year") PyV.pyNone
      = Except.error (CfgErr.keyError ("start_year")) :=
  (C10_setitem_keys initTechnology PyV.pyNone).1 ("start_year") (by decide)

/-- C7 (amended): configuration rows with empty `Value` are skipped without
effect or error and rows with unrecognized `data_type` are a fatal
`ValueError`, in both readers; scenario rows with `data_type` int/float/
string store the correspondingly converted value under their `Param` key;
technology rows additionally go through `Technology.__setitem__`, so the
store succeeds exactly for the eleven recognized `Param` keys and any other
`Param` raises `KeyError`. -/
theorem C7_config_rows :
    (∀ config (r : Row) rest, r.Value = "" →
        readScenarioAux config (r :: rest) = readScenarioAux config rest)
    ∧ (∀ config (r : Row) rest, r.Value ≠ "" → r.data_type = "int" →
        readScenarioAux config (r :: rest)
          = readScenarioAux (dictInsert config r.Param (PyV.intConv r.Value)) rest)
    ∧ (∀ config (r : Row) rest, r.Value ≠ "" → r.data_type = "float" →
        readScenarioAux config (r :: rest)
          = readScenarioAux (dictInsert config r.Param (PyV.floatConv r.Value)) rest)
    ∧ (∀ config (r : Row) rest, r.Value ≠ "" → r.data_type = "string" →
        readScenarioAux config (r :: rest)
          = readScenarioAux (dictInsert config r.Param (PyV.strConv r.Value)) rest)
    ∧ (∀ config (r : Row) rest, r.Value ≠ "" →
        r.data_type ≠ "int" → r.data_type ≠ "float" → r.data_type ≠ "string" →
        readScenarioAux config (r :: rest)
          = Except.error (CfgErr.valueError ("Config file data type not recognised.")))
    ∧ (∀ techs (r : RowT) rest, r.Value = "" →
        readTechAux techs (r :: rest) = readTechAux techs rest)
    ∧ (∀ techs (r : RowT) rest, r.Value ≠ "" →
        r.data_type ≠ "int" → r.data_type ≠ "float" → r.data_type ≠ "string" →
        readTechAux techs (r :: rest)
          = Except.error (CfgErr.valueError ("Config file data type not recognised.")))
    ∧ (∀ techs (r : RowT) rest, r.Value ≠ "" →
        (r.data_type = "int" ∨ r.data_type = "float" ∨ r.data_type = "string") →
        r.Param ∉ recognizedTechKeys →
        readTechAux techs (r :: rest) = Except.error (CfgErr.keyError r.Param))
    ∧ (∀ techs (r : RowT) rest, r.Value ≠ "" → r.data_type = "int" →
        r.Param ∈ recognizedTechKeys →
        ∃ t1, setItem (techAt techs r.Fuel) r.Param (PyV.intConv r.Value) = Except.ok t1
          ∧ readTechAux techs (r :: rest)
              = readTechAux (dictInsert (techsEnsure techs r.Fuel) r.Fuel t1) rest)
    ∧ (∀ techs (r : RowT) rest, r.Value ≠ "" → r.data_type = "float" →
        r.Param ∈ recognizedTechKeys →
        ∃ t1, setItem (techAt techs r.Fuel) r.Param (PyV.floatConv r.Value) = Except.ok t1
          ∧ readTechAux techs (r :: rest)
              = readTechAux (dictInsert (techsEnsure techs r.Fuel) r.Fuel t1) rest)
    ∧ (∀ techs (r : RowT) rest, r.Value ≠ "" → r.data_type = "string" →
        r.Param ∈ recognizedTechKeys →
        ∃ t1, setItem (techAt techs r.Fuel) r.Param (PyV.strConv r.Value) = Except.ok t1
          ∧ readTechAux techs (r :: rest)
              = readTechAux (dictInsert (techsEnsure techs r.Fuel) r.Fuel t1) rest) := by
  refine ⟨?_, ?_, ?_, ?_, ?_, ?_, ?_, ?_, ?_, ?_, ?_⟩
  · intro config r rest hv
    simp [readScenarioAux, hv]
  · intro config r rest hv hdt
    simp [readScenarioAux, hv, hdt]
  · intro config r rest hv hdt
    have hne : r.data_type ≠ "int" := by rw [hdt]; decide
    simp [readScenarioAux, hv, hdt, hne]
  · intro config r rest hv hdt
    have hne1 : r.data_type ≠ "int" := by rw [hdt]; decide
    have hne2 : r.data_type ≠ "float" := by rw [hdt]; decide
    simp [readScenarioAux, hv, hdt, hne1, hne2]
  · intro config r rest hv h1 h2 h3
    simp [readScenarioAux, hv, h1, h2, h3]
  · intro techs r rest hv
    simp [readTechAux, hv]
  · intro techs r rest hv h1 h2 h3
    simp [readTechAux, hv, h1, h2, h3]
  · intro techs r rest hv hdt hk
    rcases hdt with hdt | hdt | hdt
    · simp [readTechAux, hv, hdt, setItem_unknown _ _ _ hk]
    · have hne : r.data_type ≠ "int" := by rw [hdt]; decide
      simp [readTechAux, hv, hdt, hne, setItem_unknown _ _ _ hk]
    · have hne1 : r.data_type ≠ "int" := by rw [hdt]; decide
      have hne2 : r.data_type ≠ "float" := by rw [hdt]; decide
      simp [readTechAux, hv, hdt, hne1, hne2, setItem_unknown _ _ _ hk]
  · intro techs r rest hv hdt hk
    simp only [recognizedTechKeys, List.mem_cons, List.not_mem_nil, or_false] at hk
    rcases hk with h | h | h | h | h | h | h | h | h | h | h <;>
      exact ⟨_, by rw [h]; rfl, by simp [readTechAux, hv, hdt, setItem, h]⟩
  · intro techs r rest hv hdt hk
    have hne : r.data_type ≠ "int" := by rw [hdt]; decide
    simp only [recognizedTechKeys, List.mem_cons, List.not_mem_nil, or_false] at hk
    rcases hk with h | h | h | h | h | h | h | h | h | h | h <;>
      exact ⟨_, by rw [h]; rfl, by simp [readTechAux, hv, hdt, hne, setItem, h]⟩
  · intro techs r rest hv hdt hk
    have hne1 : r.data_type ≠ "int" := by rw [hdt]; decide
    have hne2 : r.data_type ≠ "float" := by rw [hdt]; decide
    simp only [recognizedTechKeys, List.mem_cons, List.not_mem_nil, or_false] at hk
    rcases hk with h | h | h | h | h | h | h | h | h | h | h <;>
      exact ⟨_, by rw [h]; rfl, by simp [readTechAux, hv, hdt, hne1, hne2, setItem, h]⟩

/-- C7 counterexample: a per-technology row with recognized `data_type`
`int`, nonempty `Value` and `Param = start_year` is not stored — the read
aborts with `KeyError`, contradicting the claim that every such row stores
its converted value under its `Param` key. -/
theorem C7_counterexample :
    read_tech_data [rowTbad] = Except.error (CfgErr.keyError ("start_year")) := rfl

theorem C7_witness :
    read_scenario_data [rowW]
      = Except.ok [(("Population_start_year"), PyV.intConv ("1000"))] :=
  ((C7_config_rows).2.1 [] rowW [] (by decide) rfl).trans rfl

/-- C9: with two layer names selected under one category, the rebuilt
selection keeps only the last name — masking processes `("cat","b")` but
never `("cat","a")` — while masking with no boundary set raises as claimed. -/
theorem C9_mask_skips_names :
    mask_layers true regC9 selC9 = Except.ok [(("cat"), ("b"), false)]
      ∧ mask_layers false regC9 selC9
        = Except.error (CfgErr.exception
            ("The mask_layer attribute is empty, please first add a mask layer using the add_mask_layer method.")) :=
  ⟨rfl, rfl⟩

theorem calibAux_count_le (cs ptot ucur : ℚ) :
    ∀ fuel factor umod gdf, (calibAux cs ptot ucur fuel factor umod gdf).2 ≤ fuel := by
  intro fuel
  induction fuel with
  | zero => intro factor umod gdf; exact Nat.le_refl 0
  | succ n ih =>
    intro factor umod gdf
    by_cases h : abs (umod - ucur) ≤ 1 / 100
    · simp only [calibAux, if_pos h]
      exact Nat.zero_le _
    · simp only [calibAux, if_neg h]
      exact Nat.succ_le_succ (ih _ _ _)

theorem calibAux_result_classified (cs ptot ucur : ℚ) :
    ∀ fuel factor umod gdf,
      (calibAux cs ptot ucur fuel factor umod gdf).1 = gdf
        ∨ ∃ (f : ℚ) (g : List PT), (calibAux cs ptot ucur fuel factor umod gdf).1
            = g.map (classifyPoint cs f) := by
  intro fuel
  induction fuel with
  | zero => intro factor umod gdf; exact Or.inl rfl
  | succ n ih =>
    intro factor umod gdf
    by_cases h : abs (umod - ucur) ≤ 1 / 100
    · simp only [calibAux, if_pos h]
      simp
    · simp only [calibAux, if_neg h]
      rcases ih (if ucur < urban_modelled_src cs factor ptot gdf then factor * (11 / 10)
          else factor * (9 / 10)) (urban_modelled_src cs factor ptot gdf)
          (gdf.map (classifyPoint cs factor)) with hc | ⟨f, g, hc⟩
      · exact Or.inr ⟨factor, gdf, hc⟩
      · exact Or.inr ⟨f, g, hc⟩

/-- C4 (amended): the urban-calibration loop always terminates after at most
501 body iterations (the source breaks when the post-increment counter
exceeds 500, allowing one extra body), and it returns the last computed
classification — the input table untouched, or the output of a
reclassification pass — without raising an error. -/
theorem C4_iteration_bound (cs ptot ucur : ℚ) (gdf : List PT) :
    (calibrate_urban cs ptot ucur gdf).2 ≤ 501
      ∧ ((calibrate_urban cs ptot ucur gdf).1 = gdf
          ∨ ∃ (f : ℚ) (g : List PT),
              (calibrate_urban cs ptot ucur gdf).1 = g.map (classifyPoint cs f)) :=
  ⟨calibAux_count_le cs ptot ucur 501 1 2 gdf,
   calibAux_result_classified cs ptot ucur 501 1 2 gdf⟩

theorem calibAux_empty_count :
    ∀ fuel factor umod, 1 / 100 < abs (umod - 1) →
      (calibAux 1 1 1 fuel factor umod []).2 = fuel := by
  intro fuel
  induction fuel with
  | zero => intro factor umod h; rfl
  | succ n ih =>
    intro factor umod h
    simp only [calibAux, if_neg (not_le.mpr h)]
    have hz : urban_modelled_src 1 factor 1 [] = 0 := by
      simp [urban_modelled_src]
    have h1 : (1 : ℚ) / 100 < abs (urban_modelled_src 1 factor 1 [] - 1) := by
      rw [hz]
      rw [show (0 : ℚ) - 1 = -1 by norm_num, abs_neg, abs_one]
      norm_num
    simp only [List.map_nil]
    rw [ih _ _ h1]

/-- C4 counterexample: with an empty point table, total population 1 and
target urban share 1, the modelled share never comes within the tolerance,
and the loop performs exactly 501 body iterations — more than the 500 the
claim states. -/
theorem C4_counterexample :
    (calibrate_urban 1 1 1 []).2 = 501 ∧ ¬ ((calibrate_urban 1 1 1 []).2 ≤ 500) := by
  have h : (1 : ℚ) / 100 < abs (2 - 1) := by
    rw [show (2 : ℚ) - 1 = 1 by norm_num, abs_one]
    norm_num
  have hc : (calibrate_urban 1 1 1 []).2 = 501 := calibAux_empty_count 501 1 2 h
  exact ⟨hc, by rw [hc]; omega⟩

theorem urban_num_eq (cs factor : ℚ) :
    ∀ gdf : List PT,
      (((gdf.map (classifyPoint cs factor)).filter
          (fun q => decide (1 < q.IsUrban))).map (fun q => q.Calibrated_pop)).sum
        = ((gdf.filter (fun q => decide ((classifyPoint cs factor q).IsUrban = 2))).map
            (fun q => q.Calibrated_pop)).sum := by
  intro gdf
  induction gdf with
  | nil => rfl
  | cons p tl ih =>
    by_cases h2 : 50000 * factor < p.Population ∧ 1500 * factor < p.Population / cs
    · simp only [List.map_cons, List.filter_cons]
      simp [classifyPoint, h2, ih]
    · by_cases h1 : 5000 * factor < p.Population ∧ 350 * factor < p.Population / cs
      · simp only [List.map_cons, List.filter_cons]
        simp [classifyPoint, h2, h1, ih]
      · simp only [List.map_cons, List.filter_cons]
        simp [classifyPoint, h2, h1, ih]

/-- C5 (amended): in each calibration iteration a point gets `IsUrban = 2`
exactly when te tier-2 thresholds are strictly exceeded (the later tier-2
assignment overrides tier-1, which tier-2 implies for a positive factor),
`IsUrban = 1` exactly when the tier-1 thresholds are exceeded but the tier-2
ones are not, and otherwise 0; the modelled urban share sums calibrated
population over the points with `IsUrban = 2` only (the source filters
`IsUrban > 1`), divided by the configured total population. -/
theorem C5_classification_and_share (cs factor : ℚ) (hf : 0 < factor) (p : PT) :
    ((classifyPoint cs factor p).IsUrban = 2
        ↔ (50000 * factor < p.Population ∧ 1500 * factor < p.Population / cs))
      ∧ ((classifyPoint cs factor p).IsUrban = 1
          ↔ ((5000 * factor < p.Population ∧ 350 * factor < p.Population / cs)
              ∧ ¬(50000 * factor < p.Population ∧ 1500 * factor < p.Population / cs)))
      ∧ ((50000 * factor < p.Population ∧ 1500 * factor < p.Population / cs)
          → (5000 * factor < p.Population ∧ 350 * factor < p.Population / cs))
      ∧ (∀ ptot gdf, urban_modelled_src cs factor ptot gdf
          = ((gdf.filter (fun q => decide ((classifyPoint cs factor q).IsUrban = 2))).map
              (fun q => q.Calibrated_pop)).sum / ptot) := by
  refine ⟨?_, ?_, ?_, ?_⟩
  · by_cases h2 : 50000 * factor < p.Population ∧ 1500 * factor < p.Population / cs
    · simp [classifyPoint, h2]
    · by_cases h1 : 5000 * factor < p.Population ∧ 350 * factor < p.Population / cs
      · simp [classifyPoint, h2, h1]
      · simp [classifyPoint, h2, h1]
  · by_cases h2 : 50000 * factor < p.Population ∧ 1500 * factor < p.Population / cs
    · simp [classifyPoint, h2]
    · by_cases h1 : 5000 * factor < p.Population ∧ 350 * factor < p.Population / cs
      · simp [classifyPoint, h2, h1]
      · simp [classifyPoint, h2, h1]
  · rintro ⟨ha, hb⟩
    constructor
    · exact lt_trans (mul_lt_mul_of_pos_right (by norm_num) hf) ha
    · exact lt_trans (mul_lt_mul_of_pos_right (by norm_num) hf) hb
  · intro ptot gdf
    rw [urban_modelled_src, urban_num_eq]

/-- C5 counterexample: a single tier-1 (not tier-2) point with calibrated
population 100 out of a configured total of 200.  The share of the source (which
counts only `IsUrban > 1`) is 0, while the share claimed — calibrated
population of all urban-classified points over total population — is 1/2. -/
theorem C5_counterexample :
    urban_modelled_src 1 1 200 [pC5] = 0
      ∧ urban_modelled_spec 1 1 200 [pC5] = 1 / 2
      ∧ urban_modelled_src 1 1 200 [pC5] ≠ urban_modelled_spec 1 1 200 [pC5] := by
  refine ⟨?_, ?_, ?_⟩ <;>
    norm_num [urban_modelled_src, urban_modelled_spec, classifyPoint, pC5]

theorem C5_witness :
    (classifyPoint 1 1 pC5).IsUrban = 2
      ↔ (50000 * 1 < pC5.Population ∧ 1500 * 1 < pC5.Population / 1) :=
  (C5_classification_and_share 1 1 (by norm_num) pC5).1

theorem list_getD_of_le {α : Type} (d : α) :
    ∀ (l : List α) (i : Nat), l.length ≤ i → l.getD i d = d := by
  intro l
  induction l with
  | nil => intro i _; cases i <;> rfl
  | cons a tl ih =>
    intro i hi
    cases i with
    | zero => simp at hi
    | succ j => simpa using ih j (by simpa using hi)

theorem list_getD_set_self {α : Type} (d : α) :
    ∀ (l : List α) (i : Nat) (a : α), i < l.length → (l.set i a).getD i d = a := by
  intro l
  induction l with
  | nil => intro i a hi; simp at hi
  | cons b tl ih =>
    intro i a hi
    cases i with
    | zero => rfl
    | succ j => simpa using ih j a (by simpa using hi)

theorem list_getD_set_other {α : Type} (d : α) :
    ∀ (l : List α) (i j : Nat) (a : α), i ≠ j → (l.set i a).getD j d = l.getD j d := by
  intro l
  induction l with
  | nil => intro i j a _; simp [List.set]
  | cons b tl ih =>
    intro i j a hij
    cases i with
    | zero =>
      cases j with
      | zero => exact absurd rfl hij
      | succ k => rfl
    | succ i2 =>
      cases j with
      | zero => rfl
      | succ k => simpa using ih i2 k a (fun hh => hij (by rw [hh]))

theorem list_getD_replicate {α : Type} (a : α) :
    ∀ (n i : Nat), (List.replicate n a).getD i a = a := by
  intro n
  induction n with
  | zero => intro i; cases i <;> rfl
  | succ m ih =>
    intro i
    cases i with
    | zero => rfl
    | succ j => simpa [List.replicate] using ih j

theorem list_getD_zipWith {α : Type} (f : α → α → α) (d : α) :
    ∀ (A B : List α) (i : Nat), i < A.length → i < B.length →
      (List.zipWith f A B).getD i d = f (A.getD i d) (B.getD i d) := by
  intro A
  induction A with
  | nil => intro B i hi _; simp at hi
  | cons a tA ih =>
    intro B i hiA hiB
    cases B with
    | nil => simp at hiB
    | cons b tB =>
      cases i with
      | zero => rfl
      | succ j => simpa using ih tB j (by simpa using hiA) (by simpa using hiB)

theorem list_getD_range_pow {K : Type} [LinearOrderedField K] (r : K)
    (n i : Nat) (hi : i < n) :
    ((List.range n).map (fun year => (1 + r) ^ year)).getD i 0 = (1 + r) ^ i := by
  rw [List.getD_eq_getElem?_getD, List.getElem?_map, List.getElem?_range hi]
  rfl

/-- C6: for a technology with positive `tech_life`, the discounted
investment series has length `proj_life` (`end_year - start_year`, or 1 when
the years coincide), carries the investment cost at index 0, has exactly one
further investment entry — at index `tech_life`, discounted — when
`proj_life > tech_life`, and no entry after year 0 when
`proj_life = tech_life`. -/
theorem C6_discounted_inv {K : Type} [LinearOrderedField K] (r : K)
    (tech : Technology K) (h : 0 < tech.tech_life) :
    (discounted_inv r tech).length = proj_life tech
      ∧ (0 < proj_life tech → (discounted_inv r tech).getD 0 0 = tech.inv_cost)
      ∧ (tech.tech_life < proj_life tech →
          (discounted_inv r tech).getD tech.tech_life 0
              = tech.inv_cost / (1 + r) ^ tech.tech_life
            ∧ ∀ i, i ≠ 0 → i ≠ tech.tech_life → (discounted_inv r tech).getD i 0 = 0)
      ∧ (proj_life tech = tech.tech_life →
          ∀ i, i ≠ 0 → (discounted_inv r tech).getD i 0 = 0) := by
  by_cases hc : tech.tech_life < proj_life tech
  · have hD : discounted_inv r tech
        = List.zipWith (fun a b => a / b)
            (((List.replicate (proj_life tech) (0 : K)).set 0 tech.inv_cost).set
              tech.tech_life tech.inv_cost)
            ((List.range (proj_life tech)).map (fun year => (1 + r) ^ year)) := by
      simp only [discounted_inv, discount_factor]
      rw [if_pos hc]
    have hA : (((List.replicate (proj_life tech) (0 : K)).set 0 tech.inv_cost).set
        tech.tech_life tech.inv_cost).length = proj_life tech := by simp
    have hB : ((List.range (proj_life tech)).map
        (fun year => (1 + r) ^ year)).length = proj_life tech := by simp
    refine ⟨?_, ?_, ?_, ?_⟩
    · rw [hD]
      simp [List.length_zipWith]
    · intro hpl0
      rw [hD, list_getD_zipWith _ _ _ _ 0 (by rw [hA]; exact hpl0) (by rw [hB]; exact hpl0)]
      rw [list_getD_set_other _ _ _ _ _ h.ne']
      rw [list_getD_set_self _ _ _ _ (by simpa using hpl0)]
      rw [list_getD_range_pow r _ 0 hpl0, pow_zero, div_one]
    · intro _
      constructor
      · rw [hD, list_getD_zipWith _ _ _ _ tech.tech_life (by rw [hA]; exact hc)
            (by rw [hB]; exact hc)]
        rw [list_getD_set_self _ _ _ _ (by simpa using hc)]
        rw [list_getD_range_pow r _ _ hc]
      · intro i hi0 hitl
        by_cases hip : i < proj_life tech
        · rw [hD, list_getD_zipWith _ _ _ _ i (by rw [hA]; exact hip) (by rw [hB]; exact hip)]
          rw [list_getD_set_other _ _ _ _ _ (Ne.symm hitl)]
          rw [list_getD_set_other _ _ _ _ _ (Ne.symm hi0)]
          rw [list_getD_replicate, zero_div]
        · apply list_getD_of_le
          rw [hD]
          simp only [List.length_zipWith, hA, hB, Nat.min_self]
          exact Nat.le_of_not_lt hip
    · intro heq i _
      exact absurd hc (by rw [heq]; exact Nat.lt_irrefl _)
  · have hD : discounted_inv r tech
        = List.zipWith (fun a b => a / b)
            ((List.replicate (proj_life tech) (0 : K)).set 0 tech.inv_cost)
            ((List.range (proj_life tech)).map (fun year => (1 + r) ^ year)) := by
      simp only [discounted_inv, discount_factor]
      rw [if_neg hc]
    have hA : ((List.replicate (proj_life tech) (0 : K)).set 0 tech.inv_cost).length
        = proj_life tech := by simp
    have hB : ((List.range (proj_life tech)).map
        (fun year => (1 + r) ^ year)).length = proj_life tech := by simp
    refine ⟨?_, ?_, ?_, ?_⟩
    · rw [hD]
      simp [List.length_zipWith]
    · intro hpl0
      rw [hD, list_getD_zipWith _ _ _ _ 0 (by rw [hA]; exact hpl0) (by rw [hB]; exact hpl0)]
      rw [list_getD_set_self _ _ _ _ (by simpa using hpl0)]
      rw [list_getD_range_pow r _ 0 hpl0, pow_zero, div_one]
    · intro hc2
      exact absurd hc2 hc
    · intro _ i hi0
      by_cases hip : i < proj_life tech
      · rw [hD, list_getD_zipWith _ _ _ _ i (by rw [hA]; exact hip) (by rw [hB]; exact hip)]
        rw [list_getD_set_other _ _ _ _ _ (Ne.symm hi0)]
        rw [list_getD_replicate, zero_div]
      · apply list_getD_of_le
        rw [hD]
        simp only [List.length_zipWith, hA, hB, Nat.min_self]
        exact Nat.le_of_not_lt hip

theorem C6_witness :
    (discounted_inv ((1 : ℚ) / 10) techC6).length = proj_life techC6 :=
  (C6_discounted_inv ((1 : ℚ) / 10) techC6 (by decide)).1

theorem rr_curve_at_or_below (t c k e : ℝ) (he : 0 < e) (p : ℝ) (hp : p ≤ t) :
    (if p < t then (1 : ℝ) else 1 + c * (1 - Real.exp (-k * (p - t) ^ e))) = 1 := by
  rcases lt_or_eq_of_le hp with hlt | heq
  · rw [if_pos hlt]
  · rw [if_neg (by rw [heq]; exact lt_irrefl t), heq, sub_self,
      Real.zero_rpow he.ne', mul_zero, Real.exp_zero, sub_self, mul_zero, add_zero]

theorem rr_curve_tendsto (t c k e : ℝ) (hk : 0 < k) (he : 0 < e) :
    Tendsto (fun p => if p < t then (1 : ℝ) else 1 + c * (1 - Real.exp (-k * (p - t) ^ e)))
      atTop (nhds (1 + c)) := by
  have h1 : Tendsto (fun p : ℝ => p - t) atTop atTop := by
    simpa [sub_eq_add_neg] using tendsto_atTop_add_const_right atTop (-t) tendsto_id
  have h2 : Tendsto (fun p : ℝ => (p - t) ^ e) atTop atTop :=
    (tendsto_rpow_atTop he).comp h1
  have h3 : Tendsto (fun p : ℝ => -k * (p - t) ^ e) atTop atBot :=
    Tendsto.const_mul_atTop_of_neg (neg_lt_zero.mpr hk) h2
  have h4 : Tendsto (fun p : ℝ => Real.exp (-k * (p - t) ^ e)) atTop (nhds 0) :=
    Real.tendsto_exp_atBot.comp h3
  have h5 : Tendsto (fun p : ℝ => 1 + c * (1 - Real.exp (-k * (p - t) ^ e)))
      atTop (nhds (1 + c * (1 - 0))) :=
    tendsto_const_nhds.add ((tendsto_const_nhds.sub h4).const_mul c)
  have h6 : (1 : ℝ) + c * (1 - 0) = 1 + c := by ring
  rw [h6] at h5
  refine Tendsto.congr' ?_ h5
  filter_upwards [eventually_ge_atTop t] with p hp
  rw [if_neg (not_lt.mpr hp)]

/-- C2: each relative-risk curve equals 1 exactly at or below the
threshold of its endpoint: concentration (7.298, 7.337, 7.505, 7.345), and tends to
`1 + coefficient` (2.383, 22.485, 2.538, 152.496) as `pm25` tends to
infinity. -/
theorem C2_relative_risk :
    (∀ p : ℝ, p ≤ 7.298 → rr_alri p = 1)
      ∧ (∀ p : ℝ, p ≤ 7.337 → rr_copd p = 1)
      ∧ (∀ p : ℝ, p ≤ 7.505 → rr_ihd p = 1)
      ∧ (∀ p : ℝ, p ≤ 7.345 → rr_lc p = 1)
      ∧ Tendsto rr_alri atTop (nhds (1 + 2.383))
      ∧ Tendsto rr_copd atTop (nhds (1 + 22.485))
      ∧ Tendsto rr_ihd atTop (nhds (1 + 2.538))
      ∧ Tendsto rr_lc atTop (nhds (1 + 152.496)) := by
  refine ⟨?_, ?_, ?_, ?_, ?_, ?_, ?_, ?_⟩
  · intro p hp
    exact rr_curve_at_or_below 7.298 2.383 0.004 1.193 (by norm_num) p hp
  · intro p hp
    exact rr_curve_at_or_below 7.337 22.485 0.001 0.694 (by norm_num) p hp
  · intro p hp
    exact rr_curve_at_or_below 7.505 2.538 0.081 0.466 (by norm_num) p hp
  · intro p hp
    exact rr_curve_at_or_below 7.345 152.496 0.000167 0.76 (by norm_num) p hp
  · exact Tendsto.congr (fun p => rfl)
      (rr_curve_tendsto 7.298 2.383 0.004 1.193 (by norm_num) (by norm_num))
  · exact Tendsto.congr (fun p => rfl)
      (rr_curve_tendsto 7.337 22.485 0.001 0.694 (by norm_num) (by norm_num))
  · exact Tendsto.congr (fun p => rfl)
      (rr_curve_tendsto 7.505 2.538 0.081 0.466 (by norm_num) (by norm_num))
  · exact Tendsto.congr (fun p => rfl)
      (rr_curve_tendsto 7.345 152.496 0.000167 0.76 (by norm_num) (by norm_num))

theorem C2_witness : rr_alri 0 = 1 := (C2_relative_risk).1 0 (by norm_num)

theorem morbAux_none (a : MorbArgs) :
    ∀ fuel s, s.i = 1 → morbAux a fuel s = none := by
  intro fuel
  induction fuel with
  | zero => intro s _; rfl
  | succ n ih =>
    intro s hs
    have hlt : s.i < 6 := by rw [hs]; norm_num
    rw [morbAux, if_pos hlt]
    exact ih (morb_step a s) (by rw [show (morb_step a s).i = s.i from rfl, hs])

theorem mortAux_none (a : MortArgs) :
    ∀ fuel s, s.i = 1 → mortAux a fuel s = none := by
  intro fuel
  induction fuel with
  | zero => intro s _; rfl
  | succ n ih =>
    intro s hs
    have hlt : s.i < 6 := by rw [hs]; norm_num
    rw [mortAux, if_pos hlt]
    exact ih (mort_step a s) (by rw [show (mort_step a s).i = s.i from rfl, hs])

/-- C3: the cohort loops of `morbidity` and `mortality` never terminate —
the loop counter `i` stays 1 (the bodies never increment it), so the guard
`i < 6` holds after any number of iterations and no iteration budget makes
either function return.  This contradicts the claim (and the spec) that the
computations terminate after summing exactly the 5 cohort contributions. -/
theorem C3_health_loops_never_terminate (a : MorbArgs) (b : MortArgs) (fuel : Nat) :
    morbidityFuel fuel a = none ∧ mortalityFuel fuel b = none :=
  ⟨morbAux_none a fuel _ rfl, mortAux_none b fuel _ rfl⟩

/-- C1: `net_costs` never returns a value.  Its `cost` term evaluates
`discounted_inv` and then `discounted_om`, and the latter reads
`tech.om_costs` — an attribute that no `Technology` has (the field is
`om_cost`) — so every call raises `AttributeError` there; were that fixed,
`cost` calls `discounted_fuel_cost` without its required `meals_per_year`
argument, and `benefit` calls `morbidity` with 7 of its 14 required
arguments, whose own cohort loop moreover never terminates
(`C3`-adjacent: see `morbidityFuel`). -/
theorem C1_net_costs_raises (r : ℝ) (tech : Technology ℝ)
    (meals_per_year road_friction lpg : ℝ) (start_year end_year : Nat)
    (discount_rate_social hhsize_R hhsize_U vsl value_of_time
     walking_friction forest sfu : ℝ) :
    net_costsE r tech meals_per_year road_friction lpg start_year end_year
        discount_rate_social hhsize_R hhsize_U vsl value_of_time
        walking_friction forest sfu
      = Except.error (PyErr.attributeError ("om_costs")) := rfl
